import Mathlib

/-!
Verification development for the `Qubit` wrapper class
(`qunetsim/objects/qubit.py`).

The Python class is a thin identity-bearing wrapper around a pluggable
backend.  We embed it shallowly:

* object references are opaque naturals (`Ref`);
* the backend is a record of the functions whose return values the
  entity actually uses (`create_qubit`, `measure`, `density_operator`);
  all other backend operations are void, so the observable behaviour of
  the entity is the list of backend calls it issues (`Call`);
* numpy arrays passed as custom gates are modelled by `NdArray`
  (a shape plus an entry function over `ℂ`), and `np.allclose` is
  modelled with its documented absolute-plus-relative tolerance and 2-D
  broadcasting rules over exact reals;
* `scipy.linalg.fractional_matrix_power` is an external library routine
  and enters the fidelity computation as an explicit function parameter;
* `raise InputError` raises the *class* while `InputError.__init__`
  requires a `message` argument, so at run time Python fails to
  construct the exception and a `TypeError` propagates instead; the
  embedding records this outcome as `PyErr.typeErrorMissingMessage`.

Real-number comparisons (the float comparisons of the source) are not
decidable, hence the handful of `noncomputable` definitions below; every
other definition is executable.
-/

/-- Opaque Python object reference (identity of a `Qubit` object). -/
abbrev Ref := ℕ

/-- Errors that can propagate out of the entity layer.
`typeErrorMissingMessage` is the `TypeError` produced by `raise
InputError`: the bare class is raised, Python instantiates it with zero
arguments, and `InputError.__init__(self, message)` rejects that call.
`broadcastValueError` is numpy's shape-mismatch error from `allclose`,
carrying the two 2-D shapes that failed to broadcast. -/
inductive PyErr where
  | typeErrorMissingMessage
  | broadcastValueError (r1 c1 r2 c2 : ℕ)
deriving DecidableEq

/-- A 2-D numpy array over `ℂ`: a shape together with an entry
function; only indices below the shape are ever read. -/
structure NdArray where
  rows : ℕ
  cols : ℕ
  entry : ℕ → ℕ → ℂ

/-- Embedding of `np.eye(n)`. -/
def np_eye (n : ℕ) : NdArray :=
  ⟨n, n, fun i j => if i = j then 1 else 0⟩

/-- Embedding of `m.conj().T.dot(m)`: entry `(i, j)` is
`∑ k, conj (m[k, i]) * m[k, j]`. -/
noncomputable def ctDot (m : NdArray) : NdArray :=
  ⟨m.cols, m.cols, fun i j =>
    ∑ k ∈ Finset.range m.rows, (starRingEnd ℂ) (m.entry k i) * m.entry k j⟩

/-- Default absolute tolerance of `np.allclose` (`atol=1e-08`). -/
noncomputable def np_atol : ℝ := 1 / 10 ^ 8

/-- Default relative tolerance of `np.allclose` (`rtol=1e-05`). -/
noncomputable def np_rtol : ℝ := 1 / 10 ^ 5

/-- Numpy broadcasting of a single axis: two lengths are compatible iff
they are equal or one of them is `1`; the broadcast length is the
larger one. -/
def bdim (a b : ℕ) : Option ℕ :=
  if a = b then some a else if a = 1 then some b else if b = 1 then some a else none

/-- Index into an original axis of length `d` from a broadcast index:
a length-`1` axis is repeated, any other axis is indexed directly. -/
def bidx (d i : ℕ) : ℕ :=
  if d = 1 then 0 else i

/-- Embedding of `np.allclose(a, b)` on 2-D arrays: if the shapes do
not broadcast, numpy raises a `ValueError`; otherwise the result is
elementwise `|a - b| <= atol + rtol * |b|` over the broadcast shape. -/
def np_allclose (a b : NdArray) : Except PyErr Prop :=
  match bdim a.rows b.rows, bdim a.cols b.cols with
  | some r, some c =>
      Except.ok (∀ i, i < r → ∀ j, j < c →
        Complex.abs (a.entry (bidx a.rows i) (bidx a.cols j)
            - b.entry (bidx b.rows i) (bidx b.cols j))
          ≤ np_atol + np_rtol * Complex.abs (b.entry (bidx b.rows i) (bidx b.cols j)))
  | _, _ => Except.error (PyErr.broadcastValueError a.rows a.cols b.rows b.cols)

/-- Embedding of `is_unitary(m)`:
`np.allclose(np.eye(m.shape[0]), m.conj().T.dot(m))`. -/
noncomputable def is_unitary (m : NdArray) : Except PyErr Prop :=
  np_allclose (np_eye m.rows) (ctDot m)

/-- The check ran without raising and returned `True`. -/
def okP : Except PyErr Prop → Prop
  | Except.ok p => p
  | Except.error _ => False

/-- The computation returned normally (did not raise). -/
def isOkE {α : Type} : Except PyErr α → Prop
  | Except.ok _ => True
  | Except.error _ => False

/-- Argument supplied to a custom-gate method: either a 2-D numpy
array, or any other Python value (which fails the `isinstance` check). -/
inductive GateArg where
  | nd (m : NdArray)
  | other

/-- One backend invocation, as issued by the entity.  Qubit objects are
passed by reference. -/
inductive Call where
  | create_qubit (hostId : String)
  | gI (q : Ref)
  | gX (q : Ref)
  | gY (q : Ref)
  | gZ (q : Ref)
  | gT (q : Ref)
  | gK (q : Ref)
  | gH (q : Ref)
  | grx (q : Ref) (phi : ℝ)
  | gry (q : Ref) (phi : ℝ)
  | grz (q : Ref) (phi : ℝ)
  | gcnot (q target : Ref)
  | gcphase (q target : Ref)
  | gcustom (q : Ref) (m : NdArray)
  | gcustomCtrl (q target : Ref) (m : NdArray)
  | gcustomTwoCtrl (q q1 q2 : Ref) (m : NdArray)
  | gcustomTwo (q o : Ref) (m : NdArray)
  | densityOp (q : Ref)
  | measureQ (q : Ref) (nonDestructive : Bool)
  | releaseQ (q : Ref)
  | sendQubitTo (q : Ref) (senderId receiverId : String)

/-- Whether a backend call applies a gate (as opposed to qubit
creation, measurement, density-operator retrieval, release or
transmission). -/
def isGateCall : Call → Bool
  | Call.create_qubit _ => false
  | Call.gI _ => true
  | Call.gX _ => true
  | Call.gY _ => true
  | Call.gZ _ => true
  | Call.gT _ => true
  | Call.gK _ => true
  | Call.gH _ => true
  | Call.grx _ _ => true
  | Call.gry _ _ => true
  | Call.grz _ _ => true
  | Call.gcnot _ _ => true
  | Call.gcphase _ _ => true
  | Call.gcustom _ _ => true
  | Call.gcustomCtrl _ _ _ => true
  | Call.gcustomTwoCtrl _ _ _ _ => true
  | Call.gcustomTwo _ _ _ => true
  | Call.densityOp _ => false
  | Call.measureQ _ _ => false
  | Call.releaseQ _ => false
  | Call.sendQubitTo _ _ _ => false

/-- The backend capability record, restricted to the operations whose
return values the entity consumes.  `μ` is the measurement result type,
`ν` the physical-handle type, `dn` the density-operator dimension. -/
structure Backend (μ ν : Type) (dn : ℕ) where
  create_qubit : String → ν
  measure : Ref → Bool → μ
  density_operator : Ref → Matrix (Fin dn) (Fin dn) ℂ

/-- The host collaborator: a host id and a bound backend. -/
structure Host (μ ν : Type) (dn : ℕ) where
  host_id : String
  backend : Backend μ ν dn

/-- The attribute state of a `Qubit` object, in declaration order of
`__init__`: `_blocked`, `_host`, `_id`, `_qubit`. -/
structure QubitAttrs (μ ν : Type) (dn : ℕ) where
  blocked : Bool
  host : Host μ ν dn
  id : String
  qubit : ν

/-- Python values that can be supplied as a qubit id. -/
inductive PyVal where
  | pstr (s : String)
  | pint (n : ℤ)
  | pbool (b : Bool)

/-- Embedding of Python `str(v)` on the modelled values. -/
def pyStr : PyVal → String
  | PyVal.pstr s => s
  | PyVal.pint n => toString n
  | PyVal.pbool b => if b then "True" else "False"

/-- Embedding of `Qubit.initialize_qubit(theta, phi)`: a Y-rotation by
`theta` followed by a Z-rotation by `phi`.  (Renamed from
`initialize_qubit` for the Lean development.) -/
def init_qubit_angles (self : Ref) (theta phi : ℝ) : List Call :=
  [Call.gry self theta, Call.grz self phi]

/-- Embedding of `Qubit.__init__`.  `uuidS` is the string produced by
`str(uuid.uuid4())` (the uuid library is external and enters as a
parameter).  Returns the attribute state and the ordered list of
backend calls issued before the constructor returns. -/
def qubitInit {μ ν : Type} {dn : ℕ} (uuidS : String) (host : Host μ ν dn)
    (qubit : Option ν) (q_id : Option PyVal) (blocked : Bool) (self : Ref)
    (theta phi : Option ℝ) : QubitAttrs μ ν dn × List Call :=
  let idStr := match q_id with
    | some v => pyStr v
    | none => uuidS
  let qc : ν × List Call := match qubit with
    | some q => (q, [])
    | none => (host.backend.create_qubit host.host_id, [Call.create_qubit host.host_id])
  let initCalls : List Call := match theta, phi with
    | some t, some p => init_qubit_angles self t p
    | _, _ => []
  (⟨blocked, host, idStr, qc.1⟩, qc.2 ++ initCalls)

/-- Embedding of the `id` setter: `self._id = str(new_id)`. -/
def setId {μ ν : Type} {dn : ℕ} (a : QubitAttrs μ ν dn) (v : PyVal) : QubitAttrs μ ν dn :=
  ⟨a.blocked, a.host, pyStr v, a.qubit⟩

/-- Embedding of `Qubit.measure`: returns whatever the backend returns. -/
def Qubit.measure {μ ν : Type} {dn : ℕ} (a : QubitAttrs μ ν dn) (self : Ref)
    (nonDestructive : Bool) : μ :=
  a.host.backend.measure self nonDestructive

/-- Embedding of `Qubit.density_operator`: returns whatever the backend
returns. -/
def Qubit.density_operator {μ ν : Type} {dn : ℕ} (a : QubitAttrs μ ν dn)
    (self : Ref) : Matrix (Fin dn) (Fin dn) ℂ :=
  a.host.backend.density_operator self

open Classical

/-- Embedding of `Qubit.custom_gate(gate)`: `isinstance` check, then
the unitarity check (which may itself raise numpy's broadcast error),
then the `(2, 2)` shape check; only then is the backend invoked.  Each
`raise InputError` site produces `typeErrorMissingMessage` (see the
header comment). -/
noncomputable def custom_gate (self : Ref) (gate : GateArg) : Except PyErr Call :=
  match gate with
  | GateArg.other => Except.error PyErr.typeErrorMissingMessage
  | GateArg.nd m =>
    match is_unitary m with
    | Except.error e => Except.error e
    | Except.ok p =>
      if p then
        if m.rows = 2 ∧ m.cols = 2 then Except.ok (Call.gcustom self m)
        else Except.error PyErr.typeErrorMissingMessage
      else Except.error PyErr.typeErrorMissingMessage

/-- Embedding of `Qubit.custom_controlled_gate(target, gate)`. -/
noncomputable def custom_controlled_gate (self target : Ref) (gate : GateArg) :
    Except PyErr Call :=
  match gate with
  | GateArg.other => Except.error PyErr.typeErrorMissingMessage
  | GateArg.nd m =>
    match is_unitary m with
    | Except.error e => Except.error e
    | Except.ok p =>
      if p then
        if m.rows = 2 ∧ m.cols = 2 then Except.ok (Call.gcustomCtrl self target m)
        else Except.error PyErr.typeErrorMissingMessage
      else Except.error PyErr.typeErrorMissingMessage

/-- Embedding of `Qubit.custom_two_qubit_control_gate(q1, q2, gate)`
(shape target `(4, 4)`). -/
noncomputable def custom_two_qubit_control_gate (self q1 q2 : Ref) (gate : GateArg) :
    Except PyErr Call :=
  match gate with
  | GateArg.other => Except.error PyErr.typeErrorMissingMessage
  | GateArg.nd m =>
    match is_unitary m with
    | Except.error e => Except.error e
    | Except.ok p =>
      if p then
        if m.rows = 4 ∧ m.cols = 4 then Except.ok (Call.gcustomTwoCtrl self q1 q2 m)
        else Except.error PyErr.typeErrorMissingMessage
      else Except.error PyErr.typeErrorMissingMessage

/-- Embedding of `Qubit.custom_two_qubit_gate(other_qubit, gate)`
(shape target `(4, 4)`). -/
noncomputable def custom_two_qubit_gate (self other : Ref) (gate : GateArg) :
    Except PyErr Call :=
  match gate with
  | GateArg.other => Except.error PyErr.typeErrorMissingMessage
  | GateArg.nd m =>
    match is_unitary m with
    | Except.error e => Except.error e
    | Except.ok p =>
      if p then
        if m.rows = 4 ∧ m.cols = 4 then Except.ok (Call.gcustomTwo self other m)
        else Except.error PyErr.typeErrorMissingMessage
      else Except.error PyErr.typeErrorMissingMessage

/-- Embedding of the numeric body of `Qubit.fidelity` (lines after the
two `density_operator` calls).  `fmp` stands for the external routine
`scipy.linalg.fractional_matrix_power(-, 0.5)`.  Note the numerator
squares the (complex) trace directly and the denominator test is exact
equality with zero. -/
noncomputable def np_fidelity {dn : ℕ}
    (fmp : Matrix (Fin dn) (Fin dn) ℂ → Matrix (Fin dn) (Fin dn) ℂ)
    (rho sigma : Matrix (Fin dn) (Fin dn) ℂ) : ℂ :=
  let root := fmp rho
  let mainMatrix := root * sigma * root
  let t := (fmp mainMatrix).trace
  let num := t ^ 2
  let denom := rho.trace * sigma.trace
  if denom ≠ 0 then num / denom else -1

/-- Embedding of `Qubit.fidelity(other_qubit)`: fetch both density
operators through the respective hosts' backends, then run the numeric
body. -/
noncomputable def Qubit.fidelity {μ ν μ2 ν2 : Type} {dn : ℕ}
    (fmp : Matrix (Fin dn) (Fin dn) ℂ → Matrix (Fin dn) (Fin dn) ℂ)
    (a : QubitAttrs μ ν dn) (self : Ref)
    (oa : QubitAttrs μ2 ν2 dn) (other : Ref) : ℂ :=
  np_fidelity fmp (Qubit.density_operator a self) (Qubit.density_operator oa other)

/-- Return value of a qubit operation. -/
inductive Ret (μ : Type) (dn : ℕ) where
  | runit
  | rmeas (v : μ)
  | rmat (m : Matrix (Fin dn) (Fin dn) ℂ)
  | rnum (z : ℂ)

/-- One public operation of the `Qubit` entity (other than the plain
attribute accessors), together with its arguments.  Qubit-valued
arguments are references; `ofidelity` also carries the other qubit's
attribute state because `other_qubit.density_operator()` goes through
the other qubit's host. -/
inductive Op (μ ν : Type) (dn : ℕ) where
  | oI
  | oX
  | oY
  | oZ
  | oT
  | oK
  | oH
  | orx (phi : ℝ)
  | ory (phi : ℝ)
  | orz (phi : ℝ)
  | ocnot (target : Ref)
  | ocphase (target : Ref)
  | ocustom (g : GateArg)
  | ocustomCtrl (target : Ref) (g : GateArg)
  | ocustomTwoCtrl (q1 q2 : Ref) (g : GateArg)
  | ocustomTwo (other : Ref) (g : GateArg)
  | odensity
  | omeasure (nonDestructive : Bool)
  | orelease
  | osend (receiverId : String)
  | ofidelity (other : Ref) (oa : QubitAttrs μ ν dn)

/-- Run one operation of the entity on attribute state `a` (the object
itself being reference `self`): the result is the ordered list of
backend calls issued and the value returned, or the error raised. -/
noncomputable def runOp {μ ν : Type} {dn : ℕ}
    (fmp : Matrix (Fin dn) (Fin dn) ℂ → Matrix (Fin dn) (Fin dn) ℂ)
    (a : QubitAttrs μ ν dn) (self : Ref) :
    Op μ ν dn → Except PyErr (List Call × Ret μ dn)
  | Op.oI => Except.ok ([Call.gI self], Ret.runit)
  | Op.oX => Except.ok ([Call.gX self], Ret.runit)
  | Op.oY => Except.ok ([Call.gY self], Ret.runit)
  | Op.oZ => Except.ok ([Call.gZ self], Ret.runit)
  | Op.oT => Except.ok ([Call.gT self], Ret.runit)
  | Op.oK => Except.ok ([Call.gK self], Ret.runit)
  | Op.oH => Except.ok ([Call.gH self], Ret.runit)
  | Op.orx phi => Except.ok ([Call.grx self phi], Ret.runit)
  | Op.ory phi => Except.ok ([Call.gry self phi], Ret.runit)
  | Op.orz phi => Except.ok ([Call.grz self phi], Ret.runit)
  | Op.ocnot target => Except.ok ([Call.gcnot self target], Ret.runit)
  | Op.ocphase target => Except.ok ([Call.gcphase self target], Ret.runit)
  | Op.ocustom g => (custom_gate self g).map (fun c => ([c], Ret.runit))
  | Op.ocustomCtrl target g =>
      (custom_controlled_gate self target g).map (fun c => ([c], Ret.runit))
  | Op.ocustomTwoCtrl q1 q2 g =>
      (custom_two_qubit_control_gate self q1 q2 g).map (fun c => ([c], Ret.runit))
  | Op.ocustomTwo other g =>
      (custom_two_qubit_gate self other g).map (fun c => ([c], Ret.runit))
  | Op.odensity =>
      Except.ok ([Call.densityOp self], Ret.rmat (Qubit.density_operator a self))
  | Op.omeasure nd =>
      Except.ok ([Call.measureQ self nd], Ret.rmeas (Qubit.measure a self nd))
  | Op.orelease => Except.ok ([Call.releaseQ self], Ret.runit)
  | Op.osend receiverId =>
      Except.ok ([Call.sendQubitTo self a.host.host_id receiverId], Ret.runit)
  | Op.ofidelity other oa =>
      Except.ok ([Call.densityOp self, Call.densityOp other],
        Ret.rnum (Qubit.fidelity fmp a self oa other))

/-- Concrete backend used by witnesses: handle type `ℕ`, measurement
results `ℕ` (always `0`), density operators the `1 × 1` identity. -/
def backend0 : Backend ℕ ℕ 1 :=
  ⟨fun _ => 0, fun _ _ => 0, fun _ => 1⟩

/-- Concrete host used by witnesses. -/
def host0 : Host ℕ ℕ 1 :=
  ⟨"alice", backend0⟩

/-- Concrete attribute state used by witnesses. -/
def attrs0 : QubitAttrs ℕ ℕ 1 :=
  ⟨false, host0, "q0", 0⟩

/-- A concrete 36-character uuid string, standing in for one value of
`str(uuid.uuid4())`. -/
def uuid36 : String := "00000000-0000-4000-8000-000000000000"

/-- The Pauli-X matrix as a numpy array. -/
def pauliXM : NdArray :=
  ⟨2, 2, fun i j => if i + j = 1 then 1 else 0⟩

/-- The Hadamard matrix as a numpy array. -/
noncomputable def hadamardM : NdArray :=
  ⟨2, 2, fun i j =>
    if i = 1 ∧ j = 1 then -(((Real.sqrt 2)⁻¹ : ℝ) : ℂ) else (((Real.sqrt 2)⁻¹ : ℝ) : ℂ)⟩

/-- The 2 × 2 zero matrix (both rows are rows of zeros). -/
def zeroRow2M : NdArray := ⟨2, 2, fun _ _ => 0⟩

/-- The non-unitary shear matrix `[[1, 1], [0, 1]]`. -/
def shearM : NdArray :=
  ⟨2, 2, fun i j => if i ≤ j then 1 else 0⟩

/-- The `1 × 2` all-ones array `[[1, 1]]`: non-square, but its shape
broadcasts against `eye(1)` without error. -/
def ones12M : NdArray := ⟨1, 2, fun _ _ => 1⟩

/-- A `2 × 3` zero array: non-square with both dimensions at least 2. -/
def rect23M : NdArray := ⟨2, 3, fun _ _ => 0⟩

theorem np_eye_rows (n : ℕ) : (np_eye n).rows = n := rfl

theorem np_eye_cols (n : ℕ) : (np_eye n).cols = n := rfl

theorem np_eye_entry (n i j : ℕ) : (np_eye n).entry i j = if i = j then (1 : ℂ) else 0 := rfl

theorem ctDot_rows (m : NdArray) : (ctDot m).rows = m.cols := rfl

theorem ctDot_cols (m : NdArray) : (ctDot m).cols = m.cols := rfl

theorem bidx_of_lt {d i : ℕ} (h : i < d) : bidx d i = i := by
  unfold bidx
  split
  · omega
  · rfl

theorem notOk_exists_error {α : Type} (x : Except PyErr α) (h : ¬ isOkE x) :
    ∃ er, x = Except.error er := by
  cases x with
  | ok a => simp [isOkE] at h
  | error er => exact ⟨er, rfl⟩

/-- C9: for every operation of the entity (gates, measure, release,
send_to, fidelity, density_operator, custom gates), two runs that
differ only in the value of the `blocked` flag issue identical backend
calls and produce identical results: no method reads `blocked`. -/
theorem blocked_noninterference {μ ν : Type} {dn : ℕ}
    (fmp : Matrix (Fin dn) (Fin dn) ℂ → Matrix (Fin dn) (Fin dn) ℂ)
    (b1 b2 : Bool) (h : Host μ ν dn) (i : String) (q : ν) (self : Ref)
    (op : Op μ ν dn) :
    runOp fmp ⟨b1, h, i, q⟩ self op = runOp fmp ⟨b2, h, i, q⟩ self op := by
  cases op <;> rfl

/-- C8: `measure` returns exactly the value the backend's `measure`
returns (for an arbitrary result type `μ`, hence including error-sum
types: backend outcomes propagate unchanged), and `density_operator` is
the same pass-through. -/
theorem measure_density_pass_through {μ ν : Type} {dn : ℕ} (a : QubitAttrs μ ν dn)
    (self : Ref) (nd : Bool) (v : μ) (h : a.host.backend.measure self nd = v) :
    Qubit.measure a self nd = v
    ∧ Qubit.density_operator a self = a.host.backend.density_operator self :=
  ⟨h, rfl⟩

theorem measure_density_pass_through_witness :
    Qubit.measure attrs0 0 false = 0 :=
  (measure_density_pass_through attrs0 0 false 0 rfl).1

/-- C5: the constructor's backend-call trace is the `create_qubit` call
(when no physical qubit was supplied) followed, exactly when both
angles are supplied, by one Y-rotation by `theta` then one Z-rotation
by `phi`; the gate calls issued are exactly those two rotations in that
order, and none when either angle is absent. -/
theorem init_gate_sequence {μ ν : Type} {dn : ℕ} (uuidS : String) (host : Host μ ν dn)
    (qubit : Option ν) (q_id : Option PyVal) (blocked : Bool) (self : Ref)
    (theta phi : Option ℝ) :
    (qubitInit uuidS host qubit q_id blocked self theta phi).2 =
      (match qubit with
        | some _ => []
        | none => [Call.create_qubit host.host_id])
      ++ (match theta, phi with
        | some t, some p => [Call.gry self t, Call.grz self p]
        | _, _ => [])
    ∧ (qubitInit uuidS host qubit q_id blocked self theta phi).2.filter isGateCall =
      (match theta, phi with
        | some t, some p => [Call.gry self t, Call.grz self p]
        | _, _ => []) := by
  cases qubit <;> cases theta <;> cases phi <;>
    simp [qubitInit, init_qubit_angles, isGateCall]

/-- C7: an explicit id (any modelled stringifiable value), given at
construction or through the setter, is stored as exactly `str(v)`;
without an explicit id, the freshly generated uuid string is stored. -/
theorem id_override_and_default {μ ν : Type} {dn : ℕ} (uuidS : String)
    (host : Host μ ν dn) (qubit : Option ν) (blocked : Bool) (self : Ref)
    (theta phi : Option ℝ) (v : PyVal) (a : QubitAttrs μ ν dn) :
    (qubitInit uuidS host qubit (some v) blocked self theta phi).1.id = pyStr v
    ∧ (setId a v).id = pyStr v
    ∧ (qubitInit uuidS host qubit none blocked self theta phi).1.id = uuidS :=
  ⟨rfl, rfl, rfl⟩

/-- C6 counterexample: constructing with the explicit (stringifiable)
id `""` stores the empty string, so the id is *not* always a non-empty
string. -/
theorem id_empty_on_empty_qid :
    (qubitInit uuid36 host0 (some 0) (some (PyVal.pstr "")) false 0 none none).1.id = "" :=
  rfl

/-- C6 (amended): after default construction the id is the (non-empty)
uuid string; with an explicit id `v` at construction or through the
setter the id is exactly `str(v)`, which is empty whenever `str(v)`
is. -/
theorem id_nonempty_amended {μ ν : Type} {dn : ℕ} (uuidS : String) (host : Host μ ν dn)
    (qubit : Option ν) (blocked : Bool) (self : Ref) (theta phi : Option ℝ)
    (v : PyVal) (a : QubitAttrs μ ν dn) (hu : uuidS ≠ "") :
    (qubitInit uuidS host qubit none blocked self theta phi).1.id ≠ ""
    ∧ (qubitInit uuidS host qubit (some v) blocked self theta phi).1.id = pyStr v
    ∧ (setId a v).id = pyStr v :=
  ⟨hu, rfl, rfl⟩

theorem id_nonempty_amended_witness :
    (qubitInit uuid36 host0 (some 0) none false 0 none none).1.id ≠ "" :=
  (id_nonempty_amended uuid36 host0 (some 0) false 0 none none (PyVal.pstr "x") attrs0
    (by decide)).1

/-- C1: with `rho` and `sigma` the two backend density operators and
`fmp` the external fractional-matrix-power routine, `fidelity` returns
`(trace (fmp (fmp rho * sigma * fmp rho))) ^ 2 / (trace rho * trace
sigma)` — the complex trace squared directly, no magnitude taken —
whenever the denominator is not exactly zero, and the sentinel `-1`
exactly when it is zero. -/
theorem fidelity_formula_and_sentinel {μ ν μ2 ν2 : Type} {dn : ℕ}
    (fmp : Matrix (Fin dn) (Fin dn) ℂ → Matrix (Fin dn) (Fin dn) ℂ)
    (a : QubitAttrs μ ν dn) (self : Ref) (oa : QubitAttrs μ2 ν2 dn) (other : Ref)
    (rho sigma : Matrix (Fin dn) (Fin dn) ℂ)
    (h1 : a.host.backend.density_operator self = rho)
    (h2 : oa.host.backend.density_operator other = sigma) :
    (rho.trace * sigma.trace ≠ 0 →
      Qubit.fidelity fmp a self oa other =
        ((fmp (fmp rho * sigma * fmp rho)).trace) ^ 2 / (rho.trace * sigma.trace))
    ∧ (rho.trace * sigma.trace = 0 → Qubit.fidelity fmp a self oa other = -1) := by
  subst h1
  subst h2
  constructor
  · intro hd
    simp only [Qubit.fidelity, np_fidelity, Qubit.density_operator]
    rw [if_pos hd]
  · intro hd
    simp only [Qubit.fidelity, np_fidelity, Qubit.density_operator]
    rw [if_neg (not_not.mpr hd)]

theorem fidelity_formula_witness :
    Qubit.fidelity id attrs0 0 attrs0 1 = 1 := by
  have h := (fidelity_formula_and_sentinel id attrs0 0 attrs0 1 1 1 rfl rfl).1 (by simp)
  rw [h]
  simp

theorem bdim_self (k : ℕ) : bdim k k = some k := by
  simp [bdim]

theorem is_unitary_square_iff (n : ℕ) (e : ℕ → ℕ → ℂ) :
    okP (is_unitary ⟨n, n, e⟩) ↔
      ∀ i, i < n → ∀ j, j < n →
        Complex.abs ((if i = j then (1 : ℂ) else 0) - (ctDot ⟨n, n, e⟩).entry i j)
          ≤ np_atol + np_rtol * Complex.abs ((ctDot ⟨n, n, e⟩).entry i j) := by
  simp only [is_unitary, np_allclose, np_eye_rows, np_eye_cols, ctDot_rows, ctDot_cols,
    bdim_self, okP, np_eye_entry]
  constructor
  · intro h i hi j hj
    have h2 := h i hi j hj
    rwa [bidx_of_lt hi, bidx_of_lt hj] at h2
  · intro h i hi j hj
    rw [bidx_of_lt hi, bidx_of_lt hj]
    exact h i hi j hj

theorem eye2_unitary_ok : okP (is_unitary (np_eye 2)) := by
  rw [show np_eye 2 = (⟨2, 2, fun i j => if i = j then (1 : ℂ) else 0⟩ : NdArray) from rfl,
    is_unitary_square_iff]
  intro i hi j hj
  interval_cases i <;> interval_cases j <;>
    norm_num [ctDot, Finset.sum_range_succ, np_atol, np_rtol]

theorem pauliX_unitary_ok : okP (is_unitary pauliXM) := by
  rw [show pauliXM = (⟨2, 2, fun i j => if i + j = 1 then (1 : ℂ) else 0⟩ : NdArray) from rfl,
    is_unitary_square_iff]
  intro i hi j hj
  interval_cases i <;> interval_cases j <;>
    norm_num [ctDot, Finset.sum_range_succ, np_atol, np_rtol]
theorem hadamard_unitary_ok : okP (is_unitary hadamardM) := by
  rw [show hadamardM = (⟨2, 2, fun i j =>
      if i = 1 ∧ j = 1 then -(((Real.sqrt 2)⁻¹ : ℝ) : ℂ)
      else (((Real.sqrt 2)⁻¹ : ℝ) : ℂ)⟩ : NdArray) from rfl,
    is_unitary_square_iff]
  intro i hi j hj
  have hs : (Real.sqrt 2)⁻¹ * (Real.sqrt 2)⁻¹ = (2 : ℝ)⁻¹ := by
    rw [← mul_inv, Real.mul_self_sqrt (by norm_num : (0:ℝ) ≤ 2)]
  have hc : ((Real.sqrt 2 : ℝ) : ℂ)⁻¹ * ((Real.sqrt 2 : ℝ) : ℂ)⁻¹ = ((2 : ℝ) : ℂ)⁻¹ := by
    rw [← Complex.ofReal_inv, ← Complex.ofReal_mul, hs, Complex.ofReal_inv]
  interval_cases i <;> interval_cases j <;>
    norm_num [ctDot, Finset.sum_range_succ, np_atol, np_rtol, Complex.conj_ofReal,
      hc, mul_neg, neg_mul]
theorem dominance_det_zero_false {n : ℕ} (hn : n ≤ 10 ^ 6)
    (A : Matrix (Fin n) (Fin n) ℂ) (i0 : Fin n) (hdet : A.det = 0)
    (hdiag : ∀ i : Fin n, (99 : ℝ) / 100 ≤ Complex.abs ((A.conjTranspose * A) i i))
    (hoff : ∀ i j : Fin n, i ≠ j →
      Complex.abs ((A.conjTranspose * A) i j) ≤ 1 / 10 ^ 7) : False := by
  obtain ⟨v, hv0, hAv⟩ := Matrix.exists_mulVec_eq_zero_iff.mpr hdet
  have hBv : (A.conjTranspose * A).mulVec v = 0 := by
    rw [← Matrix.mulVec_mulVec, hAv, Matrix.mulVec_zero]
  obtain ⟨im, _, hmax⟩ := Finset.exists_max_image (Finset.univ : Finset (Fin n))
    (fun i => Complex.abs (v i)) ⟨i0, Finset.mem_univ _⟩
  obtain ⟨k0, hk0⟩ := Function.ne_iff.mp hv0
  have hk0n : v k0 ≠ 0 := by simpa using hk0
  have hw : 0 < Complex.abs (v im) :=
    lt_of_lt_of_le (Complex.abs.pos hk0n) (hmax k0 (Finset.mem_univ _))
  have hrow : ∑ j : Fin n, (A.conjTranspose * A) im j * v j = 0 := by
    have h4 := congrFun hBv im
    simpa [Matrix.mulVec, Matrix.dotProduct] using h4
  have hsplit : (A.conjTranspose * A) im im * v im
      = -∑ j ∈ Finset.univ.erase im, (A.conjTranspose * A) im j * v j := by
    have h5 := Finset.add_sum_erase Finset.univ
      (fun j => (A.conjTranspose * A) im j * v j) (Finset.mem_univ im)
    rw [hrow] at h5
    exact eq_neg_of_add_eq_zero_left h5
  have habs : Complex.abs ((A.conjTranspose * A) im im) * Complex.abs (v im)
      ≤ ((n - 1 : ℕ) : ℝ) * ((1 / 10 ^ 7) * Complex.abs (v im)) := by
    rw [← map_mul, hsplit, Complex.abs.map_neg]
    calc Complex.abs (∑ j ∈ Finset.univ.erase im, (A.conjTranspose * A) im j * v j)
        ≤ ∑ j ∈ Finset.univ.erase im, Complex.abs ((A.conjTranspose * A) im j * v j) :=
          Complex.abs.sum_le _ _
      _ ≤ ∑ j ∈ Finset.univ.erase im, (1 / 10 ^ 7) * Complex.abs (v im) := by
          apply Finset.sum_le_sum
          intro j hj
          rw [map_mul]
          exact mul_le_mul (hoff im j (Finset.ne_of_mem_erase hj).symm)
            (hmax j (Finset.mem_univ _)) (Complex.abs.nonneg _) (by norm_num)
      _ = ((Finset.univ.erase im).card : ℝ) * ((1 / 10 ^ 7) * Complex.abs (v im)) := by
          rw [Finset.sum_const, nsmul_eq_mul]
      _ = ((n - 1 : ℕ) : ℝ) * ((1 / 10 ^ 7) * Complex.abs (v im)) := by
          rw [Finset.card_erase_of_mem (Finset.mem_univ _), Finset.card_univ,
            Fintype.card_fin]
  have h99 : (99 : ℝ) / 100 * Complex.abs (v im)
      ≤ Complex.abs ((A.conjTranspose * A) im im) * Complex.abs (v im) :=
    mul_le_mul_of_nonneg_right (hdiag im) (le_of_lt hw)
  have hcard : ((n - 1 : ℕ) : ℝ) ≤ 10 ^ 6 := by
    have h6 : n - 1 ≤ 10 ^ 6 := by omega
    exact_mod_cast h6
  have hstep : ((n - 1 : ℕ) : ℝ) * ((1 / 10 ^ 7) * Complex.abs (v im))
      ≤ 10 ^ 6 * ((1 / 10 ^ 7) * Complex.abs (v im)) :=
    mul_le_mul_of_nonneg_right hcard (by positivity)
  linarith [h99, habs, hstep, hw]

theorem zeroRow_not_unitary (n : ℕ) (e : ℕ → ℕ → ℂ) (i0 : ℕ) (hn : n ≤ 10 ^ 6)
    (hi0 : i0 < n) (hz : ∀ j, j < n → e i0 j = 0) :
    ¬ okP (is_unitary ⟨n, n, e⟩) := by
  rw [is_unitary_square_iff]
  intro hP
  have hBentry : ∀ i j : Fin n,
      ((Matrix.of fun a b : Fin n => e a b).conjTranspose
        * (Matrix.of fun a b : Fin n => e a b)) i j
      = (ctDot ⟨n, n, e⟩).entry i j := by
    intro i j
    rw [Matrix.mul_apply]
    have hterm : ∀ k : Fin n,
        (Matrix.of fun a b : Fin n => e a b).conjTranspose i k
          * (Matrix.of fun a b : Fin n => e a b) k j
        = (starRingEnd ℂ) (e k i) * e k j := by
      intro k
      rfl
    rw [Finset.sum_congr rfl (fun k _ => hterm k)]
    rw [show (ctDot ⟨n, n, e⟩).entry i j
        = ∑ k ∈ Finset.range n, (starRingEnd ℂ) (e k i) * e k j from rfl]
    exact Fin.sum_univ_eq_sum_range (fun k => (starRingEnd ℂ) (e k i) * e k j) n
  refine dominance_det_zero_false hn (Matrix.of fun a b : Fin n => e a b) ⟨i0, hi0⟩ ?_ ?_ ?_
  · apply Matrix.det_eq_zero_of_row_eq_zero ⟨i0, hi0⟩
    intro j
    simpa [Matrix.of_apply] using hz j j.isLt
  · intro i
    have h1 := hP i i.isLt i i.isLt
    rw [← hBentry i i, if_pos rfl] at h1
    simp only [np_atol, np_rtol] at h1
    have h2 : (1 : ℝ)
        - Complex.abs (((Matrix.of fun a b : Fin n => e a b).conjTranspose
            * (Matrix.of fun a b : Fin n => e a b)) i i)
        ≤ Complex.abs (1 - ((Matrix.of fun a b : Fin n => e a b).conjTranspose
            * (Matrix.of fun a b : Fin n => e a b)) i i) := by
      have h3 := Complex.abs.abs_abv_sub_le_abv_sub 1
        (((Matrix.of fun a b : Fin n => e a b).conjTranspose
          * (Matrix.of fun a b : Fin n => e a b)) i i)
      rw [map_one] at h3
      calc (1 : ℝ) - Complex.abs _ ≤ |1 - Complex.abs _| := le_abs_self _
        _ ≤ _ := h3
    linarith [h1, h2]
  · intro i j hne
    have h1 := hP i i.isLt j j.isLt
    rw [← hBentry i j, if_neg (fun hc => hne (Fin.val_injective hc))] at h1
    simp only [np_atol, np_rtol] at h1
    rw [zero_sub, Complex.abs.map_neg] at h1
    linarith [h1]

/-- C4: the unitarity check returns true exactly when the conjugate
transpose of `M` times `M` is within numpy's absolute-plus-relative
floating tolerance of the identity of matching dimension; the 2 × 2
identity, Pauli-X and Hadamard matrices pass it, and a square matrix
with a row of zeros fails it (proved here for every dimension up to
`10 ^ 6`, far beyond the 2 × 2 and 4 × 4 gates this code handles). -/
theorem is_unitary_check_correct :
    (∀ n : ℕ, ∀ e : ℕ → ℕ → ℂ,
      okP (is_unitary ⟨n, n, e⟩) ↔
        ∀ i, i < n → ∀ j, j < n →
          Complex.abs ((if i = j then (1 : ℂ) else 0) - (ctDot ⟨n, n, e⟩).entry i j)
            ≤ np_atol + np_rtol * Complex.abs ((ctDot ⟨n, n, e⟩).entry i j))
    ∧ okP (is_unitary (np_eye 2))
    ∧ okP (is_unitary pauliXM)
    ∧ okP (is_unitary hadamardM)
    ∧ (∀ n : ℕ, ∀ e : ℕ → ℕ → ℂ, ∀ i0 : ℕ, n ≤ 10 ^ 6 → i0 < n →
        (∀ j, j < n → e i0 j = 0) → ¬ okP (is_unitary ⟨n, n, e⟩)) :=
  ⟨is_unitary_square_iff, eye2_unitary_ok, pauliX_unitary_ok, hadamard_unitary_ok,
    zeroRow_not_unitary⟩

theorem is_unitary_check_correct_witness :
    ¬ okP (is_unitary zeroRow2M) :=
  is_unitary_check_correct.2.2.2.2 2 (fun _ _ => 0) 0 (by norm_num) (by norm_num)
    (fun _ _ => rfl)

theorem custom_gate_ok_iff (self : Ref) (g : GateArg) :
    isOkE (custom_gate self g) ↔
      ∃ m, g = GateArg.nd m ∧ okP (is_unitary m) ∧ m.rows = 2 ∧ m.cols = 2 := by
  cases g with
  | other => simp [custom_gate, isOkE]
  | nd m =>
    cases hu : is_unitary m with
    | error er => simp [custom_gate, hu, isOkE, okP]
    | ok p =>
      by_cases hp : p
      · by_cases hs : m.rows = 2 ∧ m.cols = 2
        · simp [custom_gate, hu, hp, hs.1, hs.2, isOkE, okP]
        · simp [custom_gate, hu, hp, hs, isOkE, okP]
      · simp [custom_gate, hu, hp, isOkE, okP]

theorem custom_controlled_gate_ok_iff (self target : Ref) (g : GateArg) :
    isOkE (custom_controlled_gate self target g) ↔
      ∃ m, g = GateArg.nd m ∧ okP (is_unitary m) ∧ m.rows = 2 ∧ m.cols = 2 := by
  cases g with
  | other => simp [custom_controlled_gate, isOkE]
  | nd m =>
    cases hu : is_unitary m with
    | error er => simp [custom_controlled_gate, hu, isOkE, okP]
    | ok p =>
      by_cases hp : p
      · by_cases hs : m.rows = 2 ∧ m.cols = 2
        · simp [custom_controlled_gate, hu, hp, hs.1, hs.2, isOkE, okP]
        · simp [custom_controlled_gate, hu, hp, hs, isOkE, okP]
      · simp [custom_controlled_gate, hu, hp, isOkE, okP]

theorem custom_two_qubit_control_gate_ok_iff (self q1 q2 : Ref) (g : GateArg) :
    isOkE (custom_two_qubit_control_gate self q1 q2 g) ↔
      ∃ m, g = GateArg.nd m ∧ okP (is_unitary m) ∧ m.rows = 4 ∧ m.cols = 4 := by
  cases g with
  | other => simp [custom_two_qubit_control_gate, isOkE]
  | nd m =>
    cases hu : is_unitary m with
    | error er => simp [custom_two_qubit_control_gate, hu, isOkE, okP]
    | ok p =>
      by_cases hp : p
      · by_cases hs : m.rows = 4 ∧ m.cols = 4
        · simp [custom_two_qubit_control_gate, hu, hp, hs.1, hs.2, isOkE, okP]
        · simp [custom_two_qubit_control_gate, hu, hp, hs, isOkE, okP]
      · simp [custom_two_qubit_control_gate, hu, hp, isOkE, okP]

theorem custom_two_qubit_gate_ok_iff (self other : Ref) (g : GateArg) :
    isOkE (custom_two_qubit_gate self other g) ↔
      ∃ m, g = GateArg.nd m ∧ okP (is_unitary m) ∧ m.rows = 4 ∧ m.cols = 4 := by
  cases g with
  | other => simp [custom_two_qubit_gate, isOkE]
  | nd m =>
    cases hu : is_unitary m with
    | error er => simp [custom_two_qubit_gate, hu, isOkE, okP]
    | ok p =>
      by_cases hp : p
      · by_cases hs : m.rows = 4 ∧ m.cols = 4
        · simp [custom_two_qubit_gate, hu, hp, hs.1, hs.2, isOkE, okP]
        · simp [custom_two_qubit_gate, hu, hp, hs, isOkE, okP]
      · simp [custom_two_qubit_gate, hu, hp, isOkE, okP]

/-- C2: for each of the four custom-gate operations, the backend is
invoked iff the argument is a numpy array that passes the unitarity
check and has the arity-matching shape (2 × 2 single-qubit, 4 × 4
two-qubit); whenever any check fails, the call returns an error
synchronously and no backend invocation is produced. -/
theorem custom_gate_validation (self target q1 q2 other : Ref) (g : GateArg) :
    (isOkE (custom_gate self g) ↔
      ∃ m, g = GateArg.nd m ∧ okP (is_unitary m) ∧ m.rows = 2 ∧ m.cols = 2)
    ∧ (isOkE (custom_controlled_gate self target g) ↔
      ∃ m, g = GateArg.nd m ∧ okP (is_unitary m) ∧ m.rows = 2 ∧ m.cols = 2)
    ∧ (isOkE (custom_two_qubit_control_gate self q1 q2 g) ↔
      ∃ m, g = GateArg.nd m ∧ okP (is_unitary m) ∧ m.rows = 4 ∧ m.cols = 4)
    ∧ (isOkE (custom_two_qubit_gate self other g) ↔
      ∃ m, g = GateArg.nd m ∧ okP (is_unitary m) ∧ m.rows = 4 ∧ m.cols = 4)
    ∧ (¬ isOkE (custom_gate self g) →
      ∃ er, custom_gate self g = Except.error er)
    ∧ (¬ isOkE (custom_controlled_gate self target g) →
      ∃ er, custom_controlled_gate self target g = Except.error er)
    ∧ (¬ isOkE (custom_two_qubit_control_gate self q1 q2 g) →
      ∃ er, custom_two_qubit_control_gate self q1 q2 g = Except.error er)
    ∧ (¬ isOkE (custom_two_qubit_gate self other g) →
      ∃ er, custom_two_qubit_gate self other g = Except.error er) :=
  ⟨custom_gate_ok_iff self g, custom_controlled_gate_ok_iff self target g,
    custom_two_qubit_control_gate_ok_iff self q1 q2 g,
    custom_two_qubit_gate_ok_iff self other g,
    notOk_exists_error _, notOk_exists_error _, notOk_exists_error _,
    notOk_exists_error _⟩

theorem custom_gate_validation_witness :
    isOkE (custom_gate 0 (GateArg.nd pauliXM)) :=
  (custom_gate_validation 0 0 0 0 0 (GateArg.nd pauliXM)).1.mpr
    ⟨pauliXM, rfl, pauliX_unitary_ok, rfl, rfl⟩

theorem is_unitary_square_not_error (n : ℕ) (e : ℕ → ℕ → ℂ) (er : PyErr) :
    is_unitary ⟨n, n, e⟩ ≠ Except.error er := by
  simp [is_unitary, np_allclose, np_eye_rows, np_eye_cols, ctDot_rows, ctDot_cols,
    bdim_self]

theorem custom_gate_err_of_not_unitary (self : Ref) (m : NdArray)
    (h : ¬ okP (is_unitary m)) (h2 : ∀ er, is_unitary m ≠ Except.error er) :
    custom_gate self (GateArg.nd m) = Except.error PyErr.typeErrorMissingMessage := by
  cases hu : is_unitary m with
  | error er => exact absurd hu (h2 er)
  | ok p =>
    have hp : ¬ p := by rw [hu] at h; simpa [okP] using h
    simp [custom_gate, hu, hp]

theorem custom_gate_err_of_shape (self : Ref) (m : NdArray)
    (hu : okP (is_unitary m)) (hs : ¬ (m.rows = 2 ∧ m.cols = 2)) :
    custom_gate self (GateArg.nd m) = Except.error PyErr.typeErrorMissingMessage := by
  cases h : is_unitary m with
  | error er => rw [h] at hu; simp [okP] at hu
  | ok p =>
    have hp : p := by rw [h] at hu; simpa [okP] using hu
    simp [custom_gate, h, hp, hs]

theorem shear_not_unitary : ¬ okP (is_unitary shearM) := by
  rw [show shearM = (⟨2, 2, fun i j => if i ≤ j then (1 : ℂ) else 0⟩ : NdArray) from rfl,
    is_unitary_square_iff]
  intro hP
  have h2 := hP 0 (by norm_num) 1 (by norm_num)
  norm_num [ctDot, Finset.sum_range_succ, np_atol, np_rtol] at h2

theorem eye3_unitary_ok : okP (is_unitary (np_eye 3)) := by
  rw [show np_eye 3 = (⟨3, 3, fun i j => if i = j then (1 : ℂ) else 0⟩ : NdArray) from rfl,
    is_unitary_square_iff]
  intro i hi j hj
  interval_cases i <;> interval_cases j <;>
    norm_num [ctDot, Finset.sum_range_succ, np_atol, np_rtol]

/-- C3 (code bug): the three validation failures of `custom_gate` — a
non-array argument, the non-unitary shear matrix `[[1, 1], [0, 1]]`,
and the well-formed but wrongly shaped 3 × 3 identity — all signal the
same `TypeError` arising from `raise InputError` with no constructor
argument; no `InputError` carrying check-identifying context is ever
produced, so the three failure causes are indistinguishable. -/
theorem validation_error_uninformative :
    custom_gate 0 GateArg.other = Except.error PyErr.typeErrorMissingMessage
    ∧ custom_gate 0 (GateArg.nd shearM) = Except.error PyErr.typeErrorMissingMessage
    ∧ custom_gate 0 (GateArg.nd (np_eye 3)) = Except.error PyErr.typeErrorMissingMessage :=
  ⟨rfl,
    custom_gate_err_of_not_unitary 0 shearM shear_not_unitary
      (fun er => is_unitary_square_not_error 2 (fun i j => if i ≤ j then (1 : ℂ) else 0) er),
    custom_gate_err_of_shape 0 (np_eye 3) eye3_unitary_ok (by decide)⟩

/-- C10 counterexample: the non-square `1 × 2` array `[[1, 1]]` does
*not* make `is_unitary` raise a dimension-mismatch error — its shape
broadcasts against `eye(1)` and the check even returns `True` — and the
call is instead rejected by the entity's own shape check (the
`raise InputError` site, observable as the `TypeError`). -/
theorem nonsquare_broadcast_counterexample :
    okP (is_unitary ones12M)
    ∧ custom_gate 0 (GateArg.nd ones12M)
        = Except.error PyErr.typeErrorMissingMessage := by
  have hok : okP (is_unitary ones12M) := by
    have hiff : okP (is_unitary ones12M) ↔ ∀ i, i < 2 → ∀ j, j < 2 →
        Complex.abs ((np_eye 1).entry (bidx 1 i) (bidx 1 j)
            - (ctDot ones12M).entry (bidx 2 i) (bidx 2 j))
          ≤ np_atol + np_rtol * Complex.abs ((ctDot ones12M).entry (bidx 2 i) (bidx 2 j)) :=
      Iff.rfl
    rw [hiff]
    intro i hi j hj
    norm_num [np_eye, ctDot, ones12M, bidx, Finset.sum_range_succ, np_atol, np_rtol]
  exact ⟨hok, custom_gate_err_of_shape 0 ones12M hok (by decide)⟩

/-- C10 (amended): a non-square array whose dimensions are *both at
least 2* makes the unitarity check (which runs before the entity's
shape check) raise numpy's dimension-mismatch error, which propagates
from every custom-gate operation; for every non-square array — whatever
its dimensions — no custom-gate operation ever invokes the backend. -/
theorem nonsquare_gate_rejection (self target q1 q2 o : Ref) (m : NdArray)
    (hne : m.rows ≠ m.cols) :
    (2 ≤ m.rows → 2 ≤ m.cols →
      is_unitary m
          = Except.error (PyErr.broadcastValueError m.rows m.rows m.cols m.cols)
      ∧ custom_gate self (GateArg.nd m)
          = Except.error (PyErr.broadcastValueError m.rows m.rows m.cols m.cols)
      ∧ custom_controlled_gate self target (GateArg.nd m)
          = Except.error (PyErr.broadcastValueError m.rows m.rows m.cols m.cols)
      ∧ custom_two_qubit_control_gate self q1 q2 (GateArg.nd m)
          = Except.error (PyErr.broadcastValueError m.rows m.rows m.cols m.cols)
      ∧ custom_two_qubit_gate self o (GateArg.nd m)
          = Except.error (PyErr.broadcastValueError m.rows m.rows m.cols m.cols))
    ∧ ¬ isOkE (custom_gate self (GateArg.nd m))
    ∧ ¬ isOkE (custom_controlled_gate self target (GateArg.nd m))
    ∧ ¬ isOkE (custom_two_qubit_control_gate self q1 q2 (GateArg.nd m))
    ∧ ¬ isOkE (custom_two_qubit_gate self o (GateArg.nd m)) := by
  constructor
  · intro h2 h3
    have hb : bdim m.rows m.cols = none := by
      unfold bdim
      rw [if_neg hne, if_neg (by omega : ¬ m.rows = 1), if_neg (by omega : ¬ m.cols = 1)]
    have herr : is_unitary m
        = Except.error (PyErr.broadcastValueError m.rows m.rows m.cols m.cols) := by
      simp [is_unitary, np_allclose, np_eye_rows, np_eye_cols, ctDot_rows, ctDot_cols,
        hb, bdim_self]
    exact ⟨herr, by simp [custom_gate, herr], by simp [custom_controlled_gate, herr],
      by simp [custom_two_qubit_control_gate, herr],
      by simp [custom_two_qubit_gate, herr]⟩
  · refine ⟨?_, ?_, ?_, ?_⟩
    · intro h
      obtain ⟨m2, hm, _, hr, hc⟩ := (custom_gate_ok_iff self (GateArg.nd m)).mp h
      obtain rfl : m = m2 := by injection hm
      exact hne (hr.trans hc.symm)
    · intro h
      obtain ⟨m2, hm, _, hr, hc⟩ :=
        (custom_controlled_gate_ok_iff self target (GateArg.nd m)).mp h
      obtain rfl : m = m2 := by injection hm
      exact hne (hr.trans hc.symm)
    · intro h
      obtain ⟨m2, hm, _, hr, hc⟩ :=
        (custom_two_qubit_control_gate_ok_iff self q1 q2 (GateArg.nd m)).mp h
      obtain rfl : m = m2 := by injection hm
      exact hne (hr.trans hc.symm)
    · intro h
      obtain ⟨m2, hm, _, hr, hc⟩ :=
        (custom_two_qubit_gate_ok_iff self o (GateArg.nd m)).mp h
      obtain rfl : m = m2 := by injection hm
      exact hne (hr.trans hc.symm)

theorem nonsquare_gate_rejection_witness :
    is_unitary rect23M = Except.error (PyErr.broadcastValueError 2 2 3 3) :=
  ((nonsquare_gate_rejection 0 0 0 0 0 rect23M (by decide)).1 (by decide) (by decide)).1
